import Mathlib

/-!
Shallow embedding of the WeeklyPlannerPro server (src/server/storage.ts,
src/server/routes.ts, src/shared/schema.ts).

The in-memory storage (class MemStorage) keeps each table in a JS Map
keyed by id; iteration over a Map yields insertion order, so each table is
modelled as a List of records in insertion order together with the next-id
counter.  Route handlers are modelled as pure functions from the store,
the authenticated user (req.user) and the parsed request body to a result
record carrying the HTTP status, the JSON message and the resulting store.
-/

namespace WeeklyPlanner

/-- A user row (shared/schema.ts, table users). -/
structure User where
  id : Nat
  username : String
  password : String
  fullName : String
  email : Option String
  isAdmin : Bool
deriving DecidableEq

/-- A grade row (shared/schema.ts, table grades). -/
structure Grade where
  id : Nat
  name : String
deriving DecidableEq

/-- Subject type enum: "standard" or "art" or "pe" (shared/schema.ts). -/
inductive SubjectType where
  | standard
  | art
  | pe
deriving DecidableEq

/-- A subject row (shared/schema.ts, table subjects). -/
structure Subject where
  id : Nat
  name : String
  type : SubjectType
deriving DecidableEq

/-- A teacher-to-grade assignment row (shared/schema.ts, table teacher_grades). -/
structure TeacherGrade where
  id : Nat
  teacherId : Nat
  gradeId : Nat
deriving DecidableEq

/-- A teacher-to-subject-within-grade assignment row (shared/schema.ts, table teacher_subjects). -/
structure TeacherSubject where
  id : Nat
  teacherId : Nat
  gradeId : Nat
  subjectId : Nat
deriving DecidableEq

/-- A planning week row (shared/schema.ts, table planning_weeks); dates are modelled as Nat timestamps. -/
structure PlanningWeek where
  id : Nat
  weekNumber : Nat
  year : Nat
  startDate : Nat
  endDate : Nat
  isActive : Bool
deriving DecidableEq

/-- A weekly plan row (shared/schema.ts, table weekly_plans); timestamps are Nat. -/
structure WeeklyPlan where
  id : Nat
  teacherId : Nat
  gradeId : Nat
  subjectId : Nat
  weekId : Nat
  notes : Option String
  createdAt : Nat
  updatedAt : Nat
deriving DecidableEq

/-- A daily plan row (shared/schema.ts, table daily_plans); homeworkDueDate is a Nat date. -/
structure DailyPlan where
  id : Nat
  weeklyPlanId : Nat
  dayOfWeek : Nat
  topic : Option String
  booksAndPages : Option String
  homework : Option String
  homeworkDueDate : Option Nat
  assignments : Option String
  notes : Option String
  requiredItems : Option String
  skill : Option String
  activity : Option String
deriving DecidableEq

/-- The MemStorage state: one list per Map (in insertion order) plus the next-id counters. -/
structure Store where
  users : List User
  grades : List Grade
  subjects : List Subject
  teacherGrades : List TeacherGrade
  teacherSubjects : List TeacherSubject
  planningWeeks : List PlanningWeek
  weeklyPlans : List WeeklyPlan
  dailyPlans : List DailyPlan
  userId : Nat
  gradeId : Nat
  subjectId : Nat
  teacherGradeId : Nat
  teacherSubjectId : Nat
  planningWeekId : Nat
  weeklyPlanId : Nat
  dailyPlanId : Nat
deriving DecidableEq

/-- The empty store with all counters at 1, as set up by the MemStorage constructor
before seeding. -/
def emptyStore : Store :=
  { users := [], grades := [], subjects := [], teacherGrades := [],
    teacherSubjects := [], planningWeeks := [], weeklyPlans := [], dailyPlans := [],
    userId := 1, gradeId := 1, subjectId := 1, teacherGradeId := 1,
    teacherSubjectId := 1, planningWeekId := 1, weeklyPlanId := 1, dailyPlanId := 1 }

/-! ## Password hashing (MemStorage.hashPassword / verifyPassword)

`crypto.scryptSync` is abstracted as an explicit function argument
`scrypt : String → String → String` taking the plain password and the salt;
the random salt drawn by `crypto.randomBytes` in hashPassword is an explicit
argument.  `storedPassword.split(':')` destructured as `[salt, hash]` is
modelled character by character: `hash` is the second component when it
exists, and the JS comparison `hash === suppliedHash` is false when `hash`
is undefined (fewer than two components). -/

/-- JS String.prototype.split with a one-character separator, on the character list. -/
def splitOnChar (c : Char) : List Char → List (List Char)
  | [] => [[]]
  | x :: xs =>
    if x = c then [] :: splitOnChar c xs
    else
      match splitOnChar c xs with
      | [] => [[x]]
      | y :: ys => (x :: y) :: ys

/-- MemStorage.hashPassword with the random salt made explicit:
returns "salt:hash" where hash = scrypt(plainPassword, salt). -/
def hashPassword (scrypt : String → String → String) (salt plainPassword : String) : String :=
  salt ++ ":" ++ scrypt plainPassword salt

/-- MemStorage.verifyPassword: splits the stored password on the first colon
into salt and hash, recomputes scrypt(suppliedPassword, salt) and compares. -/
def verifyPassword (scrypt : String → String → String)
    (storedPassword suppliedPassword : String) : Bool :=
  let parts := splitOnChar ':' storedPassword.data
  let salt := String.mk (parts.headD [])
  match parts[1]? with
  | none => false
  | some hash => String.mk hash == scrypt suppliedPassword salt

/-! ## User management (MemStorage) -/

/-- The insert shape accepted by createUser (insertUserSchema). -/
structure InsertUser where
  username : String
  password : String
  fullName : String
  email : Option String
  isAdmin : Bool
deriving DecidableEq

/-- MemStorage.getUser. -/
def getUser (s : Store) (id : Nat) : Option User :=
  s.users.find? (fun u => u.id == id)

/-- MemStorage.getUserByUsername. -/
def getUserByUsername (s : Store) (username : String) : Option User :=
  s.users.find? (fun u => u.username == username)

/-- MemStorage.createUser: assigns the next id and stores the record verbatim. -/
def createUser (s : Store) (insertUser : InsertUser) : User × Store :=
  let id := s.userId
  let user : User :=
    { id := id, username := insertUser.username, password := insertUser.password,
      fullName := insertUser.fullName, email := insertUser.email,
      isAdmin := insertUser.isAdmin }
  (user, { s with users := s.users ++ [user], userId := id + 1 })

/-- A Partial of InsertUser, as produced by spreading update payloads. -/
structure UserPatch where
  username : Option String := none
  password : Option String := none
  fullName : Option String := none
  email : Option String := none
  isAdmin : Option Bool := none
deriving DecidableEq

/-- JS object spread { ...user, ...userData } for a user and a partial update. -/
def applyUserPatch (u : User) (p : UserPatch) : User :=
  { u with
    username := p.username.getD u.username,
    password := p.password.getD u.password,
    fullName := p.fullName.getD u.fullName,
    email := match p.email with | some e => some e | none => u.email,
    isAdmin := p.isAdmin.getD u.isAdmin }

/-- MemStorage.updateUser. -/
def updateUser (s : Store) (id : Nat) (userData : UserPatch) : Option User × Store :=
  match getUser s id with
  | none => (none, s)
  | some user =>
    let updatedUser := applyUserPatch user userData
    (some updatedUser,
     { s with users := s.users.map (fun u => if u.id == id then updatedUser else u) })

/-- MemStorage.deleteUser: Map.delete returns whether the key existed. -/
def deleteUser (s : Store) (id : Nat) : Bool × Store :=
  if s.users.any (fun u => u.id == id) then
    (true, { s with users := s.users.filter (fun u => u.id != id) })
  else (false, s)

/-- MemStorage.verifyUserCredentials. -/
def verifyUserCredentials (scrypt : String → String → String)
    (s : Store) (username password : String) : Option User :=
  match getUserByUsername s username with
  | none => none
  | some user => if verifyPassword scrypt user.password password then some user else none

/-! ## Grade / Subject management (MemStorage) -/

/-- MemStorage.getGrade. -/
def getGrade (s : Store) (id : Nat) : Option Grade :=
  s.grades.find? (fun g => g.id == id)

/-- MemStorage.deleteGrade: just this.grades.delete(id), nothing else. -/
def deleteGrade (s : Store) (id : Nat) : Bool × Store :=
  if s.grades.any (fun g => g.id == id) then
    (true, { s with grades := s.grades.filter (fun g => g.id != id) })
  else (false, s)

/-- MemStorage.getSubject. -/
def getSubject (s : Store) (id : Nat) : Option Subject :=
  s.subjects.find? (fun x => x.id == id)

/-- MemStorage.deleteSubject: just this.subjects.delete(id), nothing else. -/
def deleteSubject (s : Store) (id : Nat) : Bool × Store :=
  if s.subjects.any (fun x => x.id == id) then
    (true, { s with subjects := s.subjects.filter (fun x => x.id != id) })
  else (false, s)

/-! ## Teacher-subject assignments (MemStorage) -/

/-- MemStorage.getTeacherSubjectsForGrade: subject ids of matching assignments,
resolved through getSubject, dropping missing subjects. -/
def getTeacherSubjectsForGrade (s : Store) (teacherId gradeId : Nat) : List Subject :=
  ((s.teacherSubjects.filter
      (fun ts => ts.teacherId == teacherId && ts.gradeId == gradeId)).map
    (fun ts => ts.subjectId)).filterMap (getSubject s)

/-! ## Planning weeks (MemStorage) -/

/-- MemStorage.getPlanningWeek. -/
def getPlanningWeek (s : Store) (id : Nat) : Option PlanningWeek :=
  s.planningWeeks.find? (fun w => w.id == id)

/-- The listPlanningWeeks sort comparator: by year descending then week number
descending (negative result puts a before b). -/
def weekCompare (a b : PlanningWeek) : Int :=
  if a.year ≠ b.year then (b.year : Int) - (a.year : Int)
  else (b.weekNumber : Int) - (a.weekNumber : Int)

/-- The ordering induced by weekCompare: a sorts no later than b. -/
def weekLe (a b : PlanningWeek) : Prop := weekCompare a b ≤ 0

instance : DecidableRel weekLe :=
  fun a b => inferInstanceAs (Decidable (weekCompare a b ≤ 0))

instance : IsTotal PlanningWeek weekLe :=
  ⟨by
    intro a b
    simp only [weekLe, weekCompare]
    by_cases h : a.year = b.year
    · simp [h]; omega
    · simp [h, Ne.symm h]; omega⟩

instance : IsTrans PlanningWeek weekLe :=
  ⟨by
    intro a b c hab hbc
    simp only [weekLe, weekCompare] at *
    by_cases h1 : a.year = b.year <;> by_cases h2 : b.year = c.year <;>
      by_cases h3 : a.year = c.year <;> simp_all <;> omega⟩

/-- MemStorage.listPlanningWeeks: all planning weeks sorted by year descending
then week number descending. -/
def listPlanningWeeks (s : Store) : List PlanningWeek :=
  s.planningWeeks.insertionSort weekLe

/-- MemStorage.deletePlanningWeek: just this.planningWeeks.delete(id), nothing else. -/
def deletePlanningWeek (s : Store) (id : Nat) : Bool × Store :=
  if s.planningWeeks.any (fun w => w.id == id) then
    (true, { s with planningWeeks := s.planningWeeks.filter (fun w => w.id != id) })
  else (false, s)

/-! ## Weekly plans (MemStorage) -/

/-- The insert shape accepted by createWeeklyPlan (insertWeeklyPlanSchema). -/
structure InsertWeeklyPlan where
  teacherId : Nat
  gradeId : Nat
  subjectId : Nat
  weekId : Nat
  notes : Option String
deriving DecidableEq

/-- MemStorage.createWeeklyPlan: assigns the next id, createdAt = updatedAt = now. -/
def createWeeklyPlan (s : Store) (plan : InsertWeeklyPlan) (now : Nat) : WeeklyPlan × Store :=
  let id := s.weeklyPlanId
  let newPlan : WeeklyPlan :=
    { id := id, teacherId := plan.teacherId, gradeId := plan.gradeId,
      subjectId := plan.subjectId, weekId := plan.weekId, notes := plan.notes,
      createdAt := now, updatedAt := now }
  (newPlan, { s with weeklyPlans := s.weeklyPlans ++ [newPlan], weeklyPlanId := id + 1 })

/-- MemStorage.getWeeklyPlan. -/
def getWeeklyPlan (s : Store) (id : Nat) : Option WeeklyPlan :=
  s.weeklyPlans.find? (fun p => p.id == id)

/-- The listGradeWeekPlans / listTeacherWeeklyPlans comparator ordering:
most recently updated first. -/
def planUpdatedLe (a b : WeeklyPlan) : Prop := b.updatedAt ≤ a.updatedAt

instance : DecidableRel planUpdatedLe :=
  fun a b => inferInstanceAs (Decidable (b.updatedAt ≤ a.updatedAt))

/-- MemStorage.listGradeWeekPlans: plans of the grade and week, most recently updated first. -/
def listGradeWeekPlans (s : Store) (gradeId weekId : Nat) : List WeeklyPlan :=
  (s.weeklyPlans.filter
    (fun p => p.gradeId == gradeId && p.weekId == weekId)).insertionSort planUpdatedLe

/-- MemStorage.updateWeeklyPlanNotes: replaces notes and refreshes updatedAt. -/
def updateWeeklyPlanNotes (s : Store) (id : Nat) (notes : String) (now : Nat) :
    Option WeeklyPlan × Store :=
  match getWeeklyPlan s id with
  | none => (none, s)
  | some plan =>
    let updatedPlan := { plan with notes := some notes, updatedAt := now }
    (some updatedPlan,
     { s with weeklyPlans := s.weeklyPlans.map (fun p => if p.id == id then updatedPlan else p) })

/-! ## Daily plans (MemStorage) -/

/-- The insert shape accepted by createDailyPlan (insertDailyPlanSchema). -/
structure InsertDailyPlan where
  weeklyPlanId : Nat
  dayOfWeek : Nat
  topic : Option String := none
  booksAndPages : Option String := none
  homework : Option String := none
  homeworkDueDate : Option Nat := none
  assignments : Option String := none
  notes : Option String := none
  requiredItems : Option String := none
  skill : Option String := none
  activity : Option String := none
deriving DecidableEq

/-- MemStorage.createDailyPlan: assigns the next id and stores the record. -/
def createDailyPlan (s : Store) (plan : InsertDailyPlan) : DailyPlan × Store :=
  let id := s.dailyPlanId
  let newPlan : DailyPlan :=
    { id := id, weeklyPlanId := plan.weeklyPlanId, dayOfWeek := plan.dayOfWeek,
      topic := plan.topic, booksAndPages := plan.booksAndPages,
      homework := plan.homework, homeworkDueDate := plan.homeworkDueDate,
      assignments := plan.assignments, notes := plan.notes,
      requiredItems := plan.requiredItems, skill := plan.skill,
      activity := plan.activity }
  (newPlan, { s with dailyPlans := s.dailyPlans ++ [newPlan], dailyPlanId := id + 1 })

/-- A Partial of InsertDailyPlan, as produced by insertDailyPlanSchema.partial(). -/
structure DailyPlanPatch where
  weeklyPlanId : Option Nat := none
  dayOfWeek : Option Nat := none
  topic : Option String := none
  booksAndPages : Option String := none
  homework : Option String := none
  homeworkDueDate : Option Nat := none
  assignments : Option String := none
  notes : Option String := none
  requiredItems : Option String := none
  skill : Option String := none
  activity : Option String := none
deriving DecidableEq

/-- JS object spread { ...plan, ...planData } for a daily plan and a partial update. -/
def applyDailyPlanPatch (p : DailyPlan) (d : DailyPlanPatch) : DailyPlan :=
  { p with
    weeklyPlanId := d.weeklyPlanId.getD p.weeklyPlanId,
    dayOfWeek := d.dayOfWeek.getD p.dayOfWeek,
    topic := match d.topic with | some t => some t | none => p.topic,
    booksAndPages := match d.booksAndPages with | some t => some t | none => p.booksAndPages,
    homework := match d.homework with | some t => some t | none => p.homework,
    homeworkDueDate := match d.homeworkDueDate with | some t => some t | none => p.homeworkDueDate,
    assignments := match d.assignments with | some t => some t | none => p.assignments,
    notes := match d.notes with | some t => some t | none => p.notes,
    requiredItems := match d.requiredItems with | some t => some t | none => p.requiredItems,
    skill := match d.skill with | some t => some t | none => p.skill,
    activity := match d.activity with | some t => some t | none => p.activity }

/-- MemStorage.getDailyPlan. -/
def getDailyPlan (s : Store) (id : Nat) : Option DailyPlan :=
  s.dailyPlans.find? (fun p => p.id == id)

/-- MemStorage.updateDailyPlan. -/
def updateDailyPlan (s : Store) (id : Nat) (planData : DailyPlanPatch) :
    Option DailyPlan × Store :=
  match getDailyPlan s id with
  | none => (none, s)
  | some plan =>
    let updatedPlan := applyDailyPlanPatch plan planData
    (some updatedPlan,
     { s with dailyPlans := s.dailyPlans.map (fun p => if p.id == id then updatedPlan else p) })

/-- The listDailyPlansForWeeklyPlan comparator ordering: day of week ascending. -/
def dayLe (a b : DailyPlan) : Prop := a.dayOfWeek ≤ b.dayOfWeek

instance : DecidableRel dayLe :=
  fun a b => inferInstanceAs (Decidable (a.dayOfWeek ≤ b.dayOfWeek))

/-- MemStorage.listDailyPlansForWeeklyPlan: the daily plans of a weekly plan,
sorted by day of week ascending. -/
def listDailyPlansForWeeklyPlan (s : Store) (weeklyPlanId : Nat) : List DailyPlan :=
  (s.dailyPlans.filter (fun p => p.weeklyPlanId == weeklyPlanId)).insertionSort dayLe

/-- The derived complete view (MemStorage.getWeeklyPlanComplete): the plan joined
with its teacher, grade, subject, week and ordered daily plans. -/
structure WeeklyPlanComplete where
  plan : WeeklyPlan
  teacher : User
  grade : Grade
  subject : Subject
  week : PlanningWeek
  dailyPlans : List DailyPlan
deriving DecidableEq

/-- MemStorage.getWeeklyPlanComplete: undefined when the plan or any joined
record is missing. -/
def getWeeklyPlanComplete (s : Store) (id : Nat) : Option WeeklyPlanComplete :=
  match getWeeklyPlan s id with
  | none => none
  | some plan =>
    match getUser s plan.teacherId, getGrade s plan.gradeId,
          getSubject s plan.subjectId, getPlanningWeek s plan.weekId with
    | some teacher, some grade, some subject, some week =>
      some { plan := plan, teacher := teacher, grade := grade, subject := subject,
             week := week, dailyPlans := listDailyPlansForWeeklyPlan s plan.id }
    | _, _, _, _ => none

/-! ## Route handlers (src/server/routes.ts)

Each handler is modelled after the session middleware has identified the
current user (req.user); the Zod body parse is modelled by taking the
already-parsed body shape as input.  Results carry the HTTP status, the
JSON message when one is sent, the JSON payload when one is sent, and the
store after the request. -/

/-- Result of a mutating route: status, message, optional created/updated
weekly plan, and the store afterwards. -/
structure WeeklyPlanRouteResult where
  status : Nat
  message : Option String
  plan : Option WeeklyPlan
  store : Store
deriving DecidableEq

/-- Result of a daily-plan mutating route. -/
structure DailyPlanRouteResult where
  status : Nat
  message : Option String
  plan : Option DailyPlan
  store : Store
deriving DecidableEq

/-- Result of a user-management route: status, message, store afterwards. -/
structure UserRouteResult where
  status : Nat
  message : Option String
  store : Store
deriving DecidableEq

/-- Result of a read-only weekly-plan route. -/
structure GetPlanResult where
  status : Nat
  message : Option String
  plan : Option WeeklyPlan
deriving DecidableEq

/-- Result of a read-only complete-plan route (GET /:id/complete and the export routes). -/
structure CompletePlanResult where
  status : Nat
  message : Option String
  plan : Option WeeklyPlanComplete
deriving DecidableEq

/-- Result of GET /api/daily-plans/weekly/:weeklyPlanId. -/
structure DailyPlanListResult where
  status : Nat
  message : Option String
  plans : Option (List DailyPlan)
deriving DecidableEq

/-- DELETE /api/users/:id (behind the isAdmin middleware): rejects deleting
the requesting account, otherwise deletes. -/
def deleteUserRoute (s : Store) (currentUser : User) (id : Nat) : UserRouteResult :=
  if !currentUser.isAdmin then { status := 403, message := some "Forbidden", store := s }
  else if id == currentUser.id then
    { status := 400, message := some "You cannot delete your own account", store := s }
  else
    let res := deleteUser s id
    if res.1 then { status := 200, message := some "User deleted successfully", store := res.2 }
    else { status := 404, message := some "User not found", store := res.2 }

/-- PATCH /api/users/:id/role (behind the isAdmin middleware): rejects changing
the requesting account, otherwise updates the isAdmin flag. -/
def patchUserRoleRoute (s : Store) (currentUser : User) (userId : Nat) (isAdmin : Bool) :
    UserRouteResult :=
  if !currentUser.isAdmin then { status := 403, message := some "Forbidden", store := s }
  else if userId == currentUser.id then
    { status := 400, message := some "You cannot modify your own admin status", store := s }
  else
    let res := updateUser s userId { isAdmin := some isAdmin }
    match res.1 with
    | some _ => { status := 200, message := none, store := res.2 }
    | none => { status := 404, message := some "User not found", store := res.2 }

/-- POST /api/register (behind the isAdmin middleware): rejects a taken
username, otherwise stores the parsed body through createUser as is. -/
def registerRoute (s : Store) (currentUser : User) (userData : InsertUser) : UserRouteResult :=
  if !currentUser.isAdmin then { status := 403, message := some "Forbidden", store := s }
  else
    match getUserByUsername s userData.username with
    | some _ => { status := 400, message := some "Username already exists", store := s }
    | none =>
      { status := 201, message := none, store := (createUser s userData).2 }

/-- The teacher-assignment eligibility check of POST /api/weekly-plans:
subjectsForGrade.some(subject => subject.id === planData.subjectId). -/
def hasSubjectCheck (s : Store) (teacherId gradeId subjectId : Nat) : Bool :=
  (getTeacherSubjectsForGrade s teacherId gradeId).any (fun subject => subject.id == subjectId)

/-- POST /api/weekly-plans (authenticated): teacherId forced to the requester,
then assignment check (403), active-week check (400), duplicate check (400),
then creation (201). -/
def postWeeklyPlansRoute (s : Store) (currentUser : User)
    (body : InsertWeeklyPlan) (now : Nat) : WeeklyPlanRouteResult :=
  let planData : InsertWeeklyPlan := { body with teacherId := currentUser.id }
  if !hasSubjectCheck s planData.teacherId planData.gradeId planData.subjectId then
    { status := 403, message := some "You are not assigned to teach this subject in this grade",
      plan := none, store := s }
  else
    match getPlanningWeek s planData.weekId with
    | none =>
      { status := 400, message := some "The selected planning week is not active",
        plan := none, store := s }
    | some week =>
      if !week.isActive then
        { status := 400, message := some "The selected planning week is not active",
          plan := none, store := s }
      else
        let existingPlans := listGradeWeekPlans s planData.gradeId planData.weekId
        match existingPlans.find?
            (fun p => p.teacherId == planData.teacherId && p.subjectId == planData.subjectId) with
        | some _ =>
          { status := 400, message := some "A plan for this subject in this week already exists",
            plan := none, store := s }
        | none =>
          let res := createWeeklyPlan s planData now
          { status := 201, message := none, plan := some res.1, store := res.2 }

/-- GET /api/weekly-plans/:id (authenticated): 404 when missing, 403 for a
non-admin who is not the owner, otherwise the plan. -/
def getWeeklyPlanRoute (s : Store) (currentUser : User) (id : Nat) : GetPlanResult :=
  match getWeeklyPlan s id with
  | none => { status := 404, message := some "Weekly plan not found", plan := none }
  | some plan =>
    if plan.teacherId != currentUser.id && !currentUser.isAdmin then
      { status := 403, message := some "Forbidden", plan := none }
    else { status := 200, message := none, plan := some plan }

/-- GET /api/weekly-plans/:id/complete (authenticated): same ownership rule on
the joined view. -/
def getWeeklyPlanCompleteRoute (s : Store) (currentUser : User) (id : Nat) :
    CompletePlanResult :=
  match getWeeklyPlanComplete s id with
  | none => { status := 404, message := some "Weekly plan not found", plan := none }
  | some plan =>
    if plan.plan.teacherId != currentUser.id && !currentUser.isAdmin then
      { status := 403, message := some "Forbidden", plan := none }
    else { status := 200, message := none, plan := some plan }

/-- PUT /api/weekly-plans/:id/notes (authenticated): ownership rule, then
notes := req.body.notes || two single quotation marks, updatedAt refreshed. -/
def putWeeklyPlanNotesRoute (s : Store) (currentUser : User) (id : Nat)
    (bodyNotes : Option String) (now : Nat) : WeeklyPlanRouteResult :=
  match getWeeklyPlan s id with
  | none => { status := 404, message := some "Weekly plan not found", plan := none, store := s }
  | some plan =>
    if plan.teacherId != currentUser.id && !currentUser.isAdmin then
      { status := 403, message := some "Forbidden", plan := none, store := s }
    else
      let notes := bodyNotes.getD ""
      let res := updateWeeklyPlanNotes s id notes now
      { status := 200, message := none, plan := res.1, store := res.2 }

/-- POST /api/daily-plans (authenticated): parent plan must exist (404),
ownership rule (403), duplicate day check (400), then creation (201). -/
def postDailyPlansRoute (s : Store) (currentUser : User) (planData : InsertDailyPlan) :
    DailyPlanRouteResult :=
  match getWeeklyPlan s planData.weeklyPlanId with
  | none => { status := 404, message := some "Weekly plan not found", plan := none, store := s }
  | some weeklyPlan =>
    if weeklyPlan.teacherId != currentUser.id && !currentUser.isAdmin then
      { status := 403, message := some "Forbidden", plan := none, store := s }
    else
      let existingDailyPlans := listDailyPlansForWeeklyPlan s planData.weeklyPlanId
      match existingDailyPlans.find? (fun p => p.dayOfWeek == planData.dayOfWeek) with
      | some _ =>
        { status := 400, message := some "A plan for this day already exists",
          plan := none, store := s }
      | none =>
        let res := createDailyPlan s planData
        { status := 201, message := none, plan := some res.1, store := res.2 }

/-- PUT /api/daily-plans/:id (authenticated): plan and parent must exist,
ownership rule, and, only when the body carries a (truthy) dayOfWeek different
from the current one, a duplicate check against the sibling days under the
current parent weekly plan; then the patch is applied. -/
def putDailyPlansRoute (s : Store) (currentUser : User) (id : Nat)
    (planData : DailyPlanPatch) : DailyPlanRouteResult :=
  match getDailyPlan s id with
  | none => { status := 404, message := some "Daily plan not found", plan := none, store := s }
  | some dailyPlan =>
    match getWeeklyPlan s dailyPlan.weeklyPlanId with
    | none => { status := 404, message := some "Weekly plan not found", plan := none, store := s }
    | some weeklyPlan =>
      if weeklyPlan.teacherId != currentUser.id && !currentUser.isAdmin then
        { status := 403, message := some "Forbidden", plan := none, store := s }
      else
        let needDuplicateCheck :=
          match planData.dayOfWeek with
          | some d => d != 0 && d != dailyPlan.dayOfWeek
          | none => false
        let hasDuplicate :=
          needDuplicateCheck &&
            (listDailyPlansForWeeklyPlan s dailyPlan.weeklyPlanId).any
              (fun p => p.id != id && some p.dayOfWeek == planData.dayOfWeek)
        if hasDuplicate then
          { status := 400, message := some "A plan for this day already exists",
            plan := none, store := s }
        else
          let res := updateDailyPlan s id planData
          { status := 200, message := none, plan := res.1, store := res.2 }

/-- GET /api/daily-plans/weekly/:weeklyPlanId (authenticated): parent must
exist, ownership rule, then the ordered list. -/
def getDailyPlansForWeeklyRoute (s : Store) (currentUser : User) (weeklyPlanId : Nat) :
    DailyPlanListResult :=
  match getWeeklyPlan s weeklyPlanId with
  | none => { status := 404, message := some "Weekly plan not found", plans := none }
  | some weeklyPlan =>
    if weeklyPlan.teacherId != currentUser.id && !currentUser.isAdmin then
      { status := 403, message := some "Forbidden", plans := none }
    else
      { status := 200, message := none,
        plans := some (listDailyPlansForWeeklyPlan s weeklyPlanId) }

/-- GET /api/weekly-plans/:id/export-pdf (authenticated): returns the complete
plan data with no ownership check. -/
def exportPdfRoute (s : Store) (currentUser : User) (id : Nat) : CompletePlanResult :=
  match getWeeklyPlanComplete s id with
  | none => { status := 404, message := some "Weekly plan not found", plan := none }
  | some plan => { status := 200, message := some "PDF export data", plan := some plan }

/-- GET /api/weekly-plans/:id/export-excel (authenticated): returns the
complete plan data with no ownership check. -/
def exportExcelRoute (s : Store) (currentUser : User) (id : Nat) : CompletePlanResult :=
  match getWeeklyPlanComplete s id with
  | none => { status := 404, message := some "Weekly plan not found", plan := none }
  | some plan => { status := 200, message := some "Excel export data", plan := some plan }

/-! ## Generic facts -/

/-- The ownership gate used across plan routes, in propositional form. -/
theorem ownership_gate (t uid : Nat) (adm : Bool) :
    ((t != uid && !adm) = true) ↔ (adm = false ∧ t ≠ uid) := by
  cases adm <;> simp [bne_iff_ne]

/-! ## Claims -/

/-- Claim C1, amended: deleteGrade, deleteSubject and deletePlanningWeek return
true exactly when a record with the given id exists, and they remove only that
record; the TeacherGrade, TeacherSubject, WeeklyPlan and DailyPlan tables are
left untouched, so records referencing the deleted id remain in the store
(there is no cascade in MemStorage). -/
theorem delete_has_no_cascade (s : Store) (id : Nat) :
    (((deleteGrade s id).1 = true ↔ ∃ g ∈ s.grades, g.id = id)
      ∧ (deleteGrade s id).2.teacherGrades = s.teacherGrades
      ∧ (deleteGrade s id).2.teacherSubjects = s.teacherSubjects
      ∧ (deleteGrade s id).2.weeklyPlans = s.weeklyPlans
      ∧ (deleteGrade s id).2.dailyPlans = s.dailyPlans)
    ∧ (((deleteSubject s id).1 = true ↔ ∃ x ∈ s.subjects, x.id = id)
      ∧ (deleteSubject s id).2.teacherGrades = s.teacherGrades
      ∧ (deleteSubject s id).2.teacherSubjects = s.teacherSubjects
      ∧ (deleteSubject s id).2.weeklyPlans = s.weeklyPlans
      ∧ (deleteSubject s id).2.dailyPlans = s.dailyPlans)
    ∧ (((deletePlanningWeek s id).1 = true ↔ ∃ w ∈ s.planningWeeks, w.id = id)
      ∧ (deletePlanningWeek s id).2.teacherGrades = s.teacherGrades
      ∧ (deletePlanningWeek s id).2.teacherSubjects = s.teacherSubjects
      ∧ (deletePlanningWeek s id).2.weeklyPlans = s.weeklyPlans
      ∧ (deletePlanningWeek s id).2.dailyPlans = s.dailyPlans) := by
  refine ⟨?_, ?_, ?_⟩
  · unfold deleteGrade
    split <;> simp_all [List.any_eq_true]
  · unfold deleteSubject
    split <;> simp_all [List.any_eq_true]
  · unfold deletePlanningWeek
    split <;> simp_all [List.any_eq_true]

/-- A store holding a grade, subject and planning week with id 1, and
assignment and plan records referencing them. -/
def cascadeStore : Store :=
  { emptyStore with
    grades := [⟨1, "Grade 1"⟩],
    subjects := [⟨1, "Mathematics", .standard⟩],
    planningWeeks := [⟨1, 16, 2024, 0, 4, true⟩],
    teacherGrades := [⟨1, 7, 1⟩],
    teacherSubjects := [⟨1, 7, 1, 1⟩],
    weeklyPlans := [⟨1, 7, 1, 1, 1, none, 0, 0⟩],
    dailyPlans := [⟨1, 1, 1, none, none, none, none, none, none, none, none, none⟩] }

/-- Claim C1, counterexample: each delete returns true, yet assignment and
plan records referencing the deleted id are still in the store afterwards. -/
theorem delete_leaves_referencing_rows :
    (deleteGrade cascadeStore 1).1 = true
    ∧ (deleteGrade cascadeStore 1).2.teacherGrades.any (fun tg => tg.gradeId == 1) = true
    ∧ (deleteGrade cascadeStore 1).2.weeklyPlans.any (fun p => p.gradeId == 1) = true
    ∧ (deleteSubject cascadeStore 1).1 = true
    ∧ (deleteSubject cascadeStore 1).2.teacherSubjects.any (fun ts => ts.subjectId == 1) = true
    ∧ (deletePlanningWeek cascadeStore 1).1 = true
    ∧ (deletePlanningWeek cascadeStore 1).2.weeklyPlans.any (fun p => p.weekId == 1) = true := by
  decide

/-- Claim C10: listPlanningWeeks returns all planning week records, ordered by
year descending and, within equal years, by weekNumber descending. -/
theorem listPlanningWeeks_sorted_desc (s : Store) :
    List.Perm (listPlanningWeeks s) s.planningWeeks
    ∧ List.Pairwise
        (fun a b => b.year < a.year ∨ (a.year = b.year ∧ b.weekNumber ≤ a.weekNumber))
        (listPlanningWeeks s) := by
  constructor
  · exact List.perm_insertionSort weekLe s.planningWeeks
  · have h := List.sorted_insertionSort weekLe s.planningWeeks
    refine List.Pairwise.imp ?_ h
    intro a b hab
    simp only [weekLe, weekCompare] at hab
    by_cases hy : a.year = b.year
    · right
      refine ⟨hy, ?_⟩
      simp [hy] at hab
      omega
    · left
      simp [hy] at hab
      omega

/-- Claim C8: an admin request deleting its own account, or toggling its own
admin flag, is rejected with 400 and the matching message, and the store is
returned unchanged. -/
theorem self_modification_rejected (s : Store) (u : User) (id : Nat) (b : Bool)
    (hadmin : u.isAdmin = true) (hself : id = u.id) :
    deleteUserRoute s u id =
      { status := 400, message := some "You cannot delete your own account", store := s }
    ∧ patchUserRoleRoute s u id b =
      { status := 400, message := some "You cannot modify your own admin status", store := s } := by
  subst hself
  simp [deleteUserRoute, patchUserRoleRoute, hadmin]

/-- A concrete admin account for exercising the self-modification rules. -/
def adminUser : User := ⟨1, "admin", "s:h", "System Administrator", none, true⟩

/-- Claim C8, witness: the self-targeting requests on a concrete store. -/
theorem self_modification_rejected_witness :
    deleteUserRoute emptyStore adminUser 1 =
      { status := 400, message := some "You cannot delete your own account", store := emptyStore }
    ∧ patchUserRoleRoute emptyStore adminUser 1 false =
      { status := 400, message := some "You cannot modify your own admin status",
        store := emptyStore } :=
  self_modification_rejected emptyStore adminUser 1 false rfl rfl

/-- Claim C5: whenever getWeeklyPlanComplete finds a plan, both export routes
answer 200 with the complete plan for every authenticated user, owner or not;
and neither route can ever answer 403. -/
theorem export_routes_skip_ownership (s : Store) (u : User) (id : Nat)
    (plan : WeeklyPlanComplete) (h : getWeeklyPlanComplete s id = some plan) :
    exportPdfRoute s u id =
      { status := 200, message := some "PDF export data", plan := some plan }
    ∧ exportExcelRoute s u id =
      { status := 200, message := some "Excel export data", plan := some plan }
    ∧ (∀ (s2 : Store) (u2 : User) (id2 : Nat),
        (exportPdfRoute s2 u2 id2).status ≠ 403 ∧ (exportExcelRoute s2 u2 id2).status ≠ 403) := by
  refine ⟨?_, ?_, ?_⟩
  · simp [exportPdfRoute, h]
  · simp [exportExcelRoute, h]
  · intro s2 u2 id2
    constructor
    · unfold exportPdfRoute
      split <;> simp
    · unfold exportExcelRoute
      split <;> simp

/-- A store where teacher 1 owns weekly plan 1 and user 2 is another,
non-admin teacher. -/
def exportStore : Store :=
  { emptyStore with
    users := [⟨1, "teacher", "s:h", "John Smith", none, false⟩,
              ⟨2, "other", "s:h", "Jane Doe", none, false⟩],
    grades := [⟨1, "Grade 3"⟩],
    subjects := [⟨1, "Mathematics", .standard⟩],
    planningWeeks := [⟨1, 16, 2024, 0, 4, true⟩],
    weeklyPlans := [⟨1, 1, 1, 1, 1, none, 0, 0⟩],
    userId := 3, gradeId := 2, subjectId := 2, planningWeekId := 2, weeklyPlanId := 2 }

/-- The non-admin, non-owner requester in exportStore. -/
def exportRequester : User := ⟨2, "other", "s:h", "Jane Doe", none, false⟩

/-- The complete view of weekly plan 1 in exportStore. -/
def exportComplete : WeeklyPlanComplete :=
  ⟨⟨1, 1, 1, 1, 1, none, 0, 0⟩, ⟨1, "teacher", "s:h", "John Smith", none, false⟩,
   ⟨1, "Grade 3"⟩, ⟨1, "Mathematics", .standard⟩, ⟨1, 16, 2024, 0, 4, true⟩, []⟩

/-- Claim C5, witness: a non-owner, non-admin user receives the full export
data of weekly plan 1 with status 200 on both routes. -/
theorem export_routes_skip_ownership_witness :
    exportPdfRoute exportStore exportRequester 1 =
      { status := 200, message := some "PDF export data", plan := some exportComplete }
    ∧ exportExcelRoute exportStore exportRequester 1 =
      { status := 200, message := some "Excel export data", plan := some exportComplete } :=
  ⟨(export_routes_skip_ownership exportStore exportRequester 1 exportComplete (by decide)).1,
   (export_routes_skip_ownership exportStore exportRequester 1 exportComplete (by decide)).2.1⟩

/-- The parsed body of a register request for a new teacher account. -/
def registerBody : InsertUser := ⟨"newteacher", "secret123", "New Teacher", none, false⟩

/-- A store holding only the admin account. -/
def registerStore : Store := { emptyStore with users := [adminUser], userId := 2 }

/-- Claim C2, failing run: POST /api/register succeeds (201) but stores the
plaintext password verbatim: the stored field is not of the salt:hash shape
(splitting on the colon yields a single part), and the created account can
never pass verifyUserCredentials with its own password, whatever scrypt is. -/
theorem register_stores_plaintext_password :
    (registerRoute registerStore adminUser registerBody).status = 201
    ∧ (registerRoute registerStore adminUser registerBody).store.users.any
        (fun u => u.username == "newteacher" && u.password == "secret123") = true
    ∧ (splitOnChar ':' "secret123".data).length = 1
    ∧ ∀ scrypt : String → String → String,
        verifyUserCredentials scrypt (registerRoute registerStore adminUser registerBody).store
          "newteacher" "secret123" = none := by
  refine ⟨by decide, by decide, by decide, ?_⟩
  intro scrypt
  rfl

/-- A teacher owning weekly plans 1 and 2, where daily plan 1 sits under
weekly plan 1 on Monday and daily plan 2 under weekly plan 2 on Monday. -/
def twoPlansStore : Store :=
  { emptyStore with
    users := [⟨1, "teacher", "s:h", "John Smith", none, false⟩],
    grades := [⟨1, "Grade 3"⟩],
    subjects := [⟨1, "Mathematics", .standard⟩, ⟨2, "Science", .standard⟩],
    planningWeeks := [⟨1, 16, 2024, 0, 4, true⟩],
    weeklyPlans := [⟨1, 1, 1, 1, 1, none, 0, 0⟩, ⟨2, 1, 1, 2, 1, none, 0, 0⟩],
    dailyPlans := [⟨1, 1, 1, none, none, none, none, none, none, none, none, none⟩,
                   ⟨2, 2, 1, none, none, none, none, none, none, none, none, none⟩],
    userId := 2, gradeId := 2, subjectId := 3, planningWeekId := 2,
    weeklyPlanId := 3, dailyPlanId := 3 }

/-- The owner of both weekly plans in twoPlansStore. -/
def twoPlansTeacher : User := ⟨1, "teacher", "s:h", "John Smith", none, false⟩

/-- Claim C7, failing run: moving daily plan 2 under weekly plan 1 via
PUT /api/daily-plans/2 with body { weeklyPlanId: 1 } succeeds with 200 and
leaves two daily plans with (weeklyPlanId 1, dayOfWeek 1): the update path
re-validates dayOfWeek only against the current parent and never re-validates
a weeklyPlanId change, so the uniqueness invariant is not preserved. -/
theorem daily_plan_uniqueness_bypass :
    ((twoPlansStore.dailyPlans.filter
        (fun p => p.weeklyPlanId == 1 && p.dayOfWeek == 1)).length = 1)
    ∧ (putDailyPlansRoute twoPlansStore twoPlansTeacher 2 { weeklyPlanId := some 1 }).status = 200
    ∧ (((putDailyPlansRoute twoPlansStore twoPlansTeacher 2
          { weeklyPlanId := some 1 }).store.dailyPlans.filter
            (fun p => p.weeklyPlanId == 1 && p.dayOfWeek == 1)).length = 2) := by
  decide

/-- The duplicate search of POST /api/weekly-plans finds a plan whenever the
store holds one with the same (teacherId, subjectId, gradeId, weekId). -/
theorem find_duplicate_some (s : Store) (uid : Nat) (body : InsertWeeklyPlan)
    (hdup : ∃ p ∈ s.weeklyPlans, p.teacherId = uid ∧ p.gradeId = body.gradeId ∧
      p.subjectId = body.subjectId ∧ p.weekId = body.weekId) :
    (listGradeWeekPlans s body.gradeId body.weekId).find?
      (fun p => p.teacherId == uid && p.subjectId == body.subjectId) ≠ none := by
  obtain ⟨p, hp, h1, h2, h3, h4⟩ := hdup
  intro hnone
  rw [List.find?_eq_none] at hnone
  have hmem : p ∈ listGradeWeekPlans s body.gradeId body.weekId := by
    unfold listGradeWeekPlans
    rw [List.Perm.mem_iff (List.perm_insertionSort _ _)]
    rw [List.mem_filter]
    exact ⟨hp, by simp [h2, h4]⟩
  have hfalse := hnone p hmem
  simp [h1, h3] at hfalse

/-- Claim C3, amended: when a WeeklyPlan with the same (teacherId, subjectId,
gradeId, weekId) already exists, POST /api/weekly-plans never creates a plan
and returns the store unchanged; and when the requester additionally passes
the assignment check and the referenced week is active, the response is 400
with the domain-conflict message. -/
theorem duplicate_weekly_plan_not_created (s : Store) (u : User)
    (body : InsertWeeklyPlan) (now : Nat)
    (hdup : ∃ p ∈ s.weeklyPlans, p.teacherId = u.id ∧ p.gradeId = body.gradeId ∧
      p.subjectId = body.subjectId ∧ p.weekId = body.weekId) :
    ((postWeeklyPlansRoute s u body now).store = s
      ∧ (postWeeklyPlansRoute s u body now).plan = none
      ∧ (postWeeklyPlansRoute s u body now).status ≠ 201)
    ∧ (∀ w : PlanningWeek,
        hasSubjectCheck s u.id body.gradeId body.subjectId = true →
        getPlanningWeek s body.weekId = some w → w.isActive = true →
        postWeeklyPlansRoute s u body now =
          { status := 400, message := some "A plan for this subject in this week already exists",
            plan := none, store := s }) := by
  have hfind := find_duplicate_some s u.id body hdup
  constructor
  · unfold postWeeklyPlansRoute
    dsimp only
    split
    · exact ⟨rfl, rfl, by simp⟩
    · split
      · exact ⟨rfl, rfl, by simp⟩
      · split
        · exact ⟨rfl, rfl, by simp⟩
        · split
          · exact ⟨rfl, rfl, by simp⟩
          · next heq => exact absurd heq hfind
  · intro w hsub hwk hact
    unfold postWeeklyPlansRoute
    dsimp only
    rw [hsub, hwk]
    simp only [hact, Bool.not_true, Bool.not_false, if_true, if_false, ite_true, ite_false]
    cases hf : (listGradeWeekPlans s body.gradeId body.weekId).find?
        (fun p => p.teacherId == u.id && p.subjectId == body.subjectId) with
    | none => exact absurd hf hfind
    | some q => simp

/-- The teacher used in the weekly-plan creation scenarios. -/
def planTeacher : User := ⟨1, "teacher", "s:h", "John Smith", none, false⟩

/-- The parsed weekly-plan creation body (grade 1, subject 1, week 1). -/
def planBody : InsertWeeklyPlan := ⟨1, 1, 1, 1, none⟩

/-- A store where teacher 1 is assigned to subject 1 in grade 1, week 1 is
active and a plan for (teacher 1, grade 1, subject 1, week 1) already exists. -/
def dupStore : Store :=
  { emptyStore with
    users := [planTeacher],
    grades := [⟨1, "Grade 3"⟩],
    subjects := [⟨1, "Mathematics", .standard⟩],
    teacherSubjects := [⟨1, 1, 1, 1⟩],
    planningWeeks := [⟨1, 16, 2024, 0, 4, true⟩],
    weeklyPlans := [⟨1, 1, 1, 1, 1, none, 0, 0⟩],
    userId := 2, gradeId := 2, subjectId := 2, teacherSubjectId := 2,
    planningWeekId := 2, weeklyPlanId := 2 }

/-- Claim C3, witness: the duplicate request on dupStore is rejected with the
domain-conflict message and the store is unchanged. -/
theorem duplicate_weekly_plan_not_created_witness :
    postWeeklyPlansRoute dupStore planTeacher planBody 9 =
      { status := 400, message := some "A plan for this subject in this week already exists",
        plan := none, store := dupStore } :=
  (duplicate_weekly_plan_not_created dupStore planTeacher planBody 9
    (by decide)).2 ⟨1, 16, 2024, 0, 4, true⟩ (by decide) (by decide) rfl

/-- dupStore with the teacher-subject assignment removed. -/
def dupStoreNoAssign : Store := { dupStore with teacherSubjects := [] }

/-- Claim C3, counterexample: a duplicate plan exists, yet the request fails
with 403 and the not-assigned message, not with the 400 domain-conflict
response the claim requires. -/
theorem duplicate_weekly_plan_cex :
    (dupStoreNoAssign.weeklyPlans.any (fun p =>
        p.teacherId == planTeacher.id && p.gradeId == planBody.gradeId &&
        p.subjectId == planBody.subjectId && p.weekId == planBody.weekId)) = true
    ∧ (postWeeklyPlansRoute dupStoreNoAssign planTeacher planBody 9).status = 403
    ∧ (postWeeklyPlansRoute dupStoreNoAssign planTeacher planBody 9).message =
        some "You are not assigned to teach this subject in this grade" := by
  decide

/-- Claim C6, amended: POST /api/weekly-plans checks the teacher-subject
assignment first: when it fails the response is 403 not-assigned regardless of
the week; when it passes, an absent or inactive referenced week yields 400
week-not-active with no plan created. -/
theorem week_and_assignment_gates (s : Store) (u : User)
    (body : InsertWeeklyPlan) (now : Nat) :
    (hasSubjectCheck s u.id body.gradeId body.subjectId = false →
      postWeeklyPlansRoute s u body now =
        { status := 403,
          message := some "You are not assigned to teach this subject in this grade",
          plan := none, store := s })
    ∧ (hasSubjectCheck s u.id body.gradeId body.subjectId = true →
        (getPlanningWeek s body.weekId = none →
          postWeeklyPlansRoute s u body now =
            { status := 400, message := some "The selected planning week is not active",
              plan := none, store := s })
        ∧ ∀ w : PlanningWeek, getPlanningWeek s body.weekId = some w → w.isActive = false →
            postWeeklyPlansRoute s u body now =
              { status := 400, message := some "The selected planning week is not active",
                plan := none, store := s }) := by
  constructor
  · intro h
    unfold postWeeklyPlansRoute
    dsimp only
    rw [h]
    simp
  · intro h
    constructor
    · intro hwk
      unfold postWeeklyPlansRoute
      dsimp only
      rw [h, hwk]
      simp
    · intro w hwk hact
      unfold postWeeklyPlansRoute
      dsimp only
      rw [h, hwk]
      simp [hact]

/-- dupStore with week 1 made inactive and no plan yet. -/
def inactiveWeekStore : Store :=
  { dupStore with planningWeeks := [⟨1, 16, 2024, 0, 4, false⟩], weeklyPlans := [] }

/-- Claim C6, witness: with the assignment in place and week 1 inactive, the
request is rejected with the week-not-active message and no plan is created. -/
theorem week_and_assignment_gates_witness :
    postWeeklyPlansRoute inactiveWeekStore planTeacher planBody 9 =
      { status := 400, message := some "The selected planning week is not active",
        plan := none, store := inactiveWeekStore } :=
  ((week_and_assignment_gates inactiveWeekStore planTeacher planBody 9).2
    (by decide)).2 ⟨1, 16, 2024, 0, 4, false⟩ (by decide) rfl

/-- inactiveWeekStore with the teacher-subject assignment also removed. -/
def inactiveWeekStoreNoAssign : Store := { inactiveWeekStore with teacherSubjects := [] }

/-- Claim C6, counterexample: the referenced week is inactive, yet the request
fails with 403 and the not-assigned message instead of the week-not-active
error the claim requires, because the assignment check runs first. -/
theorem week_gate_cex :
    getPlanningWeek inactiveWeekStoreNoAssign 1 = some ⟨1, 16, 2024, 0, 4, false⟩
    ∧ (postWeeklyPlansRoute inactiveWeekStoreNoAssign planTeacher planBody 9).status = 403
    ∧ (postWeeklyPlansRoute inactiveWeekStoreNoAssign planTeacher planBody 9).message =
        some "You are not assigned to teach this subject in this grade" := by
  decide

/-! ## Password round trip (claim C9) -/

/-- Rebuilding a string from its character data is the identity. -/
theorem string_mk_data (s : String) : String.mk s.data = s := rfl

/-- Splitting a list free of the separator yields the single whole chunk. -/
theorem splitOnChar_of_not_mem (c : Char) (l : List Char) (h : c ∉ l) :
    splitOnChar c l = [l] := by
  induction l with
  | nil => rfl
  | cons x xs ih =>
    simp only [List.mem_cons, not_or] at h
    obtain ⟨h1, h2⟩ := h
    unfold splitOnChar
    rw [if_neg (fun he => h1 he.symm), ih h2]

/-- The unfolding of splitOnChar on a cons cell. -/
theorem splitOnChar_cons (c x : Char) (xs : List Char) :
    splitOnChar c (x :: xs) =
      if x = c then [] :: splitOnChar c xs
      else
        match splitOnChar c xs with
        | [] => [[x]]
        | y :: ys => (x :: y) :: ys := rfl

/-- Splitting around the first separator occurrence splits off the prefix. -/
theorem splitOnChar_append (c : Char) (a b : List Char) (ha : c ∉ a) :
    splitOnChar c (a ++ c :: b) = a :: splitOnChar c b := by
  induction a with
  | nil => simp [splitOnChar]
  | cons x xs ih =>
    simp only [List.mem_cons, not_or] at ha
    obtain ⟨h1, h2⟩ := ha
    rw [List.cons_append, splitOnChar_cons, if_neg (fun he => h1 he.symm), ih h2]

/-- Claim C9: with the scrypt key derivation treated as a deterministic
function that is injective in the password for the fixed salt (and producing,
like hex output, no colon), verifying a hashed password against the original
plaintext succeeds and verifying against any other plaintext fails. -/
theorem password_hash_roundtrip (scrypt : String → String → String) (salt p q : String)
    (hsalt : ':' ∉ salt.data) (hhash : ':' ∉ (scrypt p salt).data)
    (hinj : ∀ a b : String, scrypt a salt = scrypt b salt → a = b) (hne : q ≠ p) :
    verifyPassword scrypt (hashPassword scrypt salt p) p = true
    ∧ verifyPassword scrypt (hashPassword scrypt salt p) q = false := by
  have hdata : (hashPassword scrypt salt p).data
      = salt.data ++ ':' :: (scrypt p salt).data := by
    simp [hashPassword]
  have hsplit : splitOnChar ':' (hashPassword scrypt salt p).data
      = [salt.data, (scrypt p salt).data] := by
    rw [hdata, splitOnChar_append _ _ _ hsalt, splitOnChar_of_not_mem _ _ hhash]
  constructor
  · unfold verifyPassword
    rw [hsplit]
    simp [string_mk_data]
  · unfold verifyPassword
    rw [hsplit]
    simp only [List.headD_cons, List.getElem?_cons_succ, List.getElem?_cons_zero,
      string_mk_data]
    rw [beq_eq_false_iff_ne]
    intro h
    exact hne (hinj p q h).symm

/-- Claim C9, witness: with a concrete injective derivation function, a
colon-free salt and two distinct passwords. -/
theorem password_hash_roundtrip_witness :
    verifyPassword (fun pw _ => pw) (hashPassword (fun pw _ => pw) "ab" "pw") "pw" = true
    ∧ verifyPassword (fun pw _ => pw) (hashPassword (fun pw _ => pw) "ab" "pw") "xx" = false :=
  password_hash_roundtrip (fun pw _ => pw) "ab" "pw" "xx" (by decide) (by decide)
    (fun a b h => h) (by decide)

/-! ## Ownership gates on the plan routes (claim C4) -/

/-- GET /api/weekly-plans/:id answers 403 exactly for a non-admin non-owner. -/
theorem getWeeklyPlanRoute_403 (s : Store) (u : User) (pid : Nat) (wp : WeeklyPlan)
    (hw : getWeeklyPlan s pid = some wp) :
    (getWeeklyPlanRoute s u pid).status = 403 ↔ u.isAdmin = false ∧ wp.teacherId ≠ u.id := by
  unfold getWeeklyPlanRoute
  rw [hw, ← ownership_gate wp.teacherId u.id u.isAdmin]
  by_cases hcond : (wp.teacherId != u.id && !u.isAdmin) = true <;> simp [hcond]

/-- GET /api/weekly-plans/:id otherwise answers 200 with the plan. -/
theorem getWeeklyPlanRoute_ok (s : Store) (u : User) (pid : Nat) (wp : WeeklyPlan)
    (hw : getWeeklyPlan s pid = some wp) :
    (getWeeklyPlanRoute s u pid).status = 403
    ∨ ((getWeeklyPlanRoute s u pid).status = 200
        ∧ (getWeeklyPlanRoute s u pid).plan = some wp) := by
  unfold getWeeklyPlanRoute
  rw [hw]
  by_cases hcond : (wp.teacherId != u.id && !u.isAdmin) = true <;> simp [hcond]

/-- GET /api/weekly-plans/:id/complete answers 403 exactly for a non-admin non-owner. -/
theorem getWeeklyPlanCompleteRoute_403 (s : Store) (u : User) (cid : Nat)
    (cp : WeeklyPlanComplete) (hc : getWeeklyPlanComplete s cid = some cp) :
    (getWeeklyPlanCompleteRoute s u cid).status = 403
      ↔ u.isAdmin = false ∧ cp.plan.teacherId ≠ u.id := by
  unfold getWeeklyPlanCompleteRoute
  rw [hc, ← ownership_gate cp.plan.teacherId u.id u.isAdmin]
  by_cases hcond : (cp.plan.teacherId != u.id && !u.isAdmin) = true <;> simp [hcond]

/-- GET /api/weekly-plans/:id/complete otherwise answers 200 with the complete plan. -/
theorem getWeeklyPlanCompleteRoute_ok (s : Store) (u : User) (cid : Nat)
    (cp : WeeklyPlanComplete) (hc : getWeeklyPlanComplete s cid = some cp) :
    (getWeeklyPlanCompleteRoute s u cid).status = 403
    ∨ ((getWeeklyPlanCompleteRoute s u cid).status = 200
        ∧ (getWeeklyPlanCompleteRoute s u cid).plan = some cp) := by
  unfold getWeeklyPlanCompleteRoute
  rw [hc]
  by_cases hcond : (cp.plan.teacherId != u.id && !u.isAdmin) = true <;> simp [hcond]

/-- PUT /api/weekly-plans/:id/notes answers 403 exactly for a non-admin non-owner. -/
theorem putWeeklyPlanNotesRoute_403 (s : Store) (u : User) (pid : Nat) (wp : WeeklyPlan)
    (bodyNotes : Option String) (now : Nat) (hw : getWeeklyPlan s pid = some wp) :
    (putWeeklyPlanNotesRoute s u pid bodyNotes now).status = 403
      ↔ u.isAdmin = false ∧ wp.teacherId ≠ u.id := by
  unfold putWeeklyPlanNotesRoute
  rw [hw, ← ownership_gate wp.teacherId u.id u.isAdmin]
  by_cases hcond : (wp.teacherId != u.id && !u.isAdmin) = true <;> simp [hcond]

/-- PUT /api/weekly-plans/:id/notes otherwise answers 200. -/
theorem putWeeklyPlanNotesRoute_ok (s : Store) (u : User) (pid : Nat) (wp : WeeklyPlan)
    (bodyNotes : Option String) (now : Nat) (hw : getWeeklyPlan s pid = some wp) :
    (putWeeklyPlanNotesRoute s u pid bodyNotes now).status = 403
    ∨ (putWeeklyPlanNotesRoute s u pid bodyNotes now).status = 200 := by
  unfold putWeeklyPlanNotesRoute
  rw [hw]
  by_cases hcond : (wp.teacherId != u.id && !u.isAdmin) = true <;> simp [hcond]

/-- GET /api/daily-plans/weekly/:id answers 403 exactly for a non-admin non-owner. -/
theorem getDailyPlansForWeeklyRoute_403 (s : Store) (u : User) (pid : Nat) (wp : WeeklyPlan)
    (hw : getWeeklyPlan s pid = some wp) :
    (getDailyPlansForWeeklyRoute s u pid).status = 403
      ↔ u.isAdmin = false ∧ wp.teacherId ≠ u.id := by
  unfold getDailyPlansForWeeklyRoute
  rw [hw, ← ownership_gate wp.teacherId u.id u.isAdmin]
  by_cases hcond : (wp.teacherId != u.id && !u.isAdmin) = true <;> simp [hcond]

/-- GET /api/daily-plans/weekly/:id otherwise answers 200 with the ordered list. -/
theorem getDailyPlansForWeeklyRoute_ok (s : Store) (u : User) (pid : Nat) (wp : WeeklyPlan)
    (hw : getWeeklyPlan s pid = some wp) :
    (getDailyPlansForWeeklyRoute s u pid).status = 403
    ∨ ((getDailyPlansForWeeklyRoute s u pid).status = 200
        ∧ (getDailyPlansForWeeklyRoute s u pid).plans
            = some (listDailyPlansForWeeklyPlan s pid)) := by
  unfold getDailyPlansForWeeklyRoute
  rw [hw]
  by_cases hcond : (wp.teacherId != u.id && !u.isAdmin) = true <;> simp [hcond]

/-- POST /api/daily-plans answers 403 exactly for a non-admin who does not own
the parent weekly plan. -/
theorem postDailyPlansRoute_403 (s : Store) (u : User) (bodyD : InsertDailyPlan)
    (bwp : WeeklyPlan) (hb : getWeeklyPlan s bodyD.weeklyPlanId = some bwp) :
    (postDailyPlansRoute s u bodyD).status = 403
      ↔ u.isAdmin = false ∧ bwp.teacherId ≠ u.id := by
  unfold postDailyPlansRoute
  rw [hb]
  dsimp only
  rw [← ownership_gate bwp.teacherId u.id u.isAdmin]
  by_cases hcond : (bwp.teacherId != u.id && !u.isAdmin) = true
  · simp [hcond]
  · rw [if_neg hcond]
    simp only [hcond, iff_false]
    split <;> simp

/-- PUT /api/daily-plans/:id answers 403 exactly for a non-admin who does not
own the parent weekly plan. -/
theorem putDailyPlansRoute_403 (s : Store) (u : User) (did : Nat) (dp : DailyPlan)
    (dwp : WeeklyPlan) (patch : DailyPlanPatch) (hd : getDailyPlan s did = some dp)
    (hdw : getWeeklyPlan s dp.weeklyPlanId = some dwp) :
    (putDailyPlansRoute s u did patch).status = 403
      ↔ u.isAdmin = false ∧ dwp.teacherId ≠ u.id := by
  unfold putDailyPlansRoute
  rw [hd]
  dsimp only
  rw [hdw]
  dsimp only
  rw [← ownership_gate dwp.teacherId u.id u.isAdmin]
  by_cases hcond : (dwp.teacherId != u.id && !u.isAdmin) = true
  · simp [hcond]
  · rw [if_neg hcond]
    simp only [hcond, iff_false]
    split <;> simp

/-- Claim C4, amended: on every plan route that exists — GET
/api/weekly-plans/:id, GET /api/weekly-plans/:id/complete, PUT
/api/weekly-plans/:id/notes, GET /api/daily-plans/weekly/:id, POST
/api/daily-plans and PUT /api/daily-plans/:id — the response is 403 exactly
when the requester is a non-admin whose id differs from the teacherId of the
(parent) plan; in particular an admin is never refused with 403 and a non-admin
passes the gate exactly on an owned plan.  (No DELETE route for weekly or
daily plans is registered, and the export GET routes skip this gate.) -/
theorem plan_routes_ownership (s : Store) (u : User)
    (pid : Nat) (wp : WeeklyPlan) (hw : getWeeklyPlan s pid = some wp)
    (cid : Nat) (cp : WeeklyPlanComplete) (hc : getWeeklyPlanComplete s cid = some cp)
    (did : Nat) (dp : DailyPlan) (hd : getDailyPlan s did = some dp)
    (dwp : WeeklyPlan) (hdw : getWeeklyPlan s dp.weeklyPlanId = some dwp)
    (bodyD : InsertDailyPlan) (bwp : WeeklyPlan)
    (hb : getWeeklyPlan s bodyD.weeklyPlanId = some bwp)
    (patch : DailyPlanPatch) (bodyNotes : Option String) (now : Nat) :
    ((getWeeklyPlanRoute s u pid).status = 403 ↔ u.isAdmin = false ∧ wp.teacherId ≠ u.id)
    ∧ ((getWeeklyPlanRoute s u pid).status = 403
        ∨ ((getWeeklyPlanRoute s u pid).status = 200
            ∧ (getWeeklyPlanRoute s u pid).plan = some wp))
    ∧ ((getWeeklyPlanCompleteRoute s u cid).status = 403
        ↔ u.isAdmin = false ∧ cp.plan.teacherId ≠ u.id)
    ∧ ((getWeeklyPlanCompleteRoute s u cid).status = 403
        ∨ ((getWeeklyPlanCompleteRoute s u cid).status = 200
            ∧ (getWeeklyPlanCompleteRoute s u cid).plan = some cp))
    ∧ ((putWeeklyPlanNotesRoute s u pid bodyNotes now).status = 403
        ↔ u.isAdmin = false ∧ wp.teacherId ≠ u.id)
    ∧ ((putWeeklyPlanNotesRoute s u pid bodyNotes now).status = 403
        ∨ (putWeeklyPlanNotesRoute s u pid bodyNotes now).status = 200)
    ∧ ((getDailyPlansForWeeklyRoute s u pid).status = 403
        ↔ u.isAdmin = false ∧ wp.teacherId ≠ u.id)
    ∧ ((getDailyPlansForWeeklyRoute s u pid).status = 403
        ∨ ((getDailyPlansForWeeklyRoute s u pid).status = 200
            ∧ (getDailyPlansForWeeklyRoute s u pid).plans
                = some (listDailyPlansForWeeklyPlan s pid)))
    ∧ ((postDailyPlansRoute s u bodyD).status = 403
        ↔ u.isAdmin = false ∧ bwp.teacherId ≠ u.id)
    ∧ ((putDailyPlansRoute s u did patch).status = 403
        ↔ u.isAdmin = false ∧ dwp.teacherId ≠ u.id) :=
  ⟨getWeeklyPlanRoute_403 s u pid wp hw,
   getWeeklyPlanRoute_ok s u pid wp hw,
   getWeeklyPlanCompleteRoute_403 s u cid cp hc,
   getWeeklyPlanCompleteRoute_ok s u cid cp hc,
   putWeeklyPlanNotesRoute_403 s u pid wp bodyNotes now hw,
   putWeeklyPlanNotesRoute_ok s u pid wp bodyNotes now hw,
   getDailyPlansForWeeklyRoute_403 s u pid wp hw,
   getDailyPlansForWeeklyRoute_ok s u pid wp hw,
   postDailyPlansRoute_403 s u bodyD bwp hb,
   putDailyPlansRoute_403 s u did dp dwp patch hd hdw⟩

/-- A store where teacher 1 owns weekly plan 1 with a Monday daily plan,
alongside a second non-admin teacher with id 2. -/
def ownStore : Store :=
  { emptyStore with
    users := [⟨1, "teacher", "s:h", "John Smith", none, false⟩,
              ⟨2, "intruder", "s:h", "Jane Doe", none, false⟩],
    grades := [⟨1, "Grade 3"⟩],
    subjects := [⟨1, "Mathematics", .standard⟩],
    planningWeeks := [⟨1, 16, 2024, 0, 4, true⟩],
    weeklyPlans := [⟨1, 1, 1, 1, 1, none, 0, 0⟩],
    dailyPlans := [⟨1, 1, 1, none, none, none, none, none, none, none, none, none⟩],
    userId := 3, gradeId := 2, subjectId := 2, planningWeekId := 2,
    weeklyPlanId := 2, dailyPlanId := 2 }

/-- The weekly plan that teacher 1 owns in ownStore. -/
def ownPlan : WeeklyPlan := ⟨1, 1, 1, 1, 1, none, 0, 0⟩

/-- The Monday daily plan under ownPlan in ownStore. -/
def ownDaily : DailyPlan := ⟨1, 1, 1, none, none, none, none, none, none, none, none, none⟩

/-- The complete view of ownPlan in ownStore. -/
def ownComplete : WeeklyPlanComplete :=
  ⟨ownPlan, ⟨1, "teacher", "s:h", "John Smith", none, false⟩, ⟨1, "Grade 3"⟩,
   ⟨1, "Mathematics", .standard⟩, ⟨1, 16, 2024, 0, 4, true⟩, [ownDaily]⟩

/-- The non-admin non-owner requester in ownStore. -/
def intruder : User := ⟨2, "intruder", "s:h", "Jane Doe", none, false⟩

/-- Claim C4, witness: in ownStore, the non-owner non-admin requester is
refused with 403 on the per-resource weekly and daily plan routes. -/
theorem plan_routes_ownership_witness :
    (getWeeklyPlanRoute ownStore intruder 1).status = 403
    ∧ (putDailyPlansRoute ownStore intruder 1 {}).status = 403 := by
  have h := plan_routes_ownership ownStore intruder 1 ownPlan (by decide)
    1 ownComplete (by decide) 1 ownDaily (by decide) ownPlan (by decide)
    { weeklyPlanId := 1, dayOfWeek := 2 } ownPlan (by decide) {} none 0
  exact ⟨h.1.mpr (by decide), h.2.2.2.2.2.2.2.2.2.mpr (by decide)⟩

/-- Claim C4, counterexample: a GET on the weekly plan of another teacher via
the export route succeeds with 200 for a non-admin non-owner instead of
failing with 403 as the claim requires of every GET. -/
theorem plan_routes_ownership_cex :
    intruder.isAdmin = false
    ∧ intruder.id = 2
    ∧ (getWeeklyPlan ownStore 1).map (fun p => p.teacherId) = some 1
    ∧ (exportPdfRoute ownStore intruder 1).status = 200
    ∧ (exportPdfRoute ownStore intruder 1).plan ≠ none := by
  decide

end WeeklyPlanner
